import Mathlib

/-!
Shallow embedding of the tezos-delegation-service ingestion core and read-side
API: the data model (`internal/model`), the translation / store service
(`internal/service/service.go`), the repository batch insert
(`internal/repository/repo.go`), the poller (`Poller` in the service package)
and the HTTP handler (`api` package).  Go slices of fetch results are embedded
as Lean lists; the remote client and the repository are embedded as explicit
result values (scripts) passed to the functions that consume them, exactly as
the repository's own mock-based tests do.  Go `int` is embedded as `Int`
(no claim depends on 64-bit overflow).
-/

namespace TezosDelegation

/-- `model.Delegation` (the gorm-persisted shape, src/unnamed/part_001):
ID, Timestamp, Amount, Delegator, Level, Year. -/
structure Delegation where
  id : Int
  timestamp : String
  amount : Int
  delegator : String
  level : Int
  year : Int
deriving Repr, DecidableEq, Inhabited

/-- The nested `sender` struct of `transport.DelegationResponse`. -/
structure Sender where
  address : String
deriving Repr, DecidableEq, Inhabited

/-- `transport.DelegationResponse` (internal/transport/tzkt.go): the raw
record shape decoded from the remote source. -/
structure DelegationResponse where
  id : Int
  timestamp : String
  amount : Int
  sender : Sender
  level : Int
deriving Repr, DecidableEq, Inhabited

/-! ### RFC3339 timestamp parsing

Model of Go `time.Parse(time.RFC3339, s)` at the precision the service needs:
the layout `2006-01-02T15:04:05Z07:00` with optional fractional seconds.
Component ranges (month 1..12, day valid for the month and leap year,
hour 0..23, minute/second 0..59, zone `Z` or a signed `hh:mm` offset) follow
Go's range checks.  Go's int64 bounds are irrelevant at this digit count. -/

/-- Numeric value of a decimal digit character, `none` otherwise. -/
def digitVal (c : Char) : Option Nat :=
  if '0' ≤ c ∧ c ≤ '9' then some (c.toNat - '0'.toNat) else none

/-- Two decimal digit characters as a number in 0..99. -/
def twoDigits (a b : Char) : Option Nat :=
  match digitVal a, digitVal b with
  | some x, some y => some (10 * x + y)
  | _, _ => none

/-- Gregorian leap-year rule, as in Go's `time` package. -/
def isLeapYear (y : Nat) : Bool :=
  (y % 4 == 0 && y % 100 != 0) || y % 400 == 0

/-- Number of days of month `m` of year `y`. -/
def daysInMonth (y m : Nat) : Nat :=
  if m = 2 then (if isLeapYear y then 29 else 28)
  else if m = 4 ∨ m = 6 ∨ m = 9 ∨ m = 11 then 30
  else 31

/-- The time-zone suffix of an RFC3339 string: `Z` or `±hh:mm`. -/
def parseZone : List Char → Bool
  | ['Z'] => true
  | [s, h1, h2, ':', m1, m2] =>
    (s == '+' || s == '-') &&
    (match twoDigits h1 h2, twoDigits m1 m2 with
     | some hh, some mm => hh ≤ 23 && mm ≤ 59
     | _, _ => false)
  | _ => false

/-- Drop a leading run of decimal digits. -/
def skipDigits : List Char → List Char
  | [] => []
  | c :: rest => if (digitVal c).isSome then skipDigits rest else c :: rest

/-- After the seconds field: either the zone directly, or `.` followed by one
or more fractional digits and then the zone (Go consumes the fraction
greedily). -/
def zoneOrFrac : List Char → Bool
  | '.' :: rest =>
    (match rest with
     | c :: _ => (digitVal c).isSome && parseZone (skipDigits rest)
     | [] => false)
  | l => parseZone l

/-- The calendar components of a parsed RFC3339 timestamp. -/
structure ParsedTime where
  year : Int
  month : Nat
  day : Nat
  hour : Nat
  minute : Nat
  second : Nat
deriving Repr, DecidableEq, Inhabited

/-- Model of Go `time.Parse(time.RFC3339, s)`, reduced to the calendar
components (the zone is validated but not retained; nothing downstream
reads it). -/
def parseRFC3339 (s : String) : Option ParsedTime :=
  match s.toList with
  | y1 :: y2 :: y3 :: y4 :: '-' :: mo1 :: mo2 :: '-' :: d1 :: d2 :: 'T' ::
      h1 :: h2 :: ':' :: mi1 :: mi2 :: ':' :: s1 :: s2 :: rest =>
    (match digitVal y1, digitVal y2, digitVal y3, digitVal y4,
           twoDigits mo1 mo2, twoDigits d1 d2, twoDigits h1 h2,
           twoDigits mi1 mi2, twoDigits s1 s2 with
     | some a, some b, some c, some d, some mo, some da, some ho, some mi, some se =>
       let y := 1000 * a + 100 * b + 10 * c + d
       if 1 ≤ mo && mo ≤ 12 && 1 ≤ da && da ≤ daysInMonth y mo &&
          ho ≤ 23 && mi ≤ 59 && se ≤ 59 && zoneOrFrac rest
       then some ⟨(y : Int), mo, da, ho, mi, se⟩
       else none
     | _, _, _, _, _, _, _, _, _ => none)
  | _ => none

example : parseRFC3339 "2023-01-01T00:00:00Z" =
    some ⟨2023, 1, 1, 0, 0, 0⟩ := by decide

example : parseRFC3339 "bad-timestamp" = none := by decide

example : parseRFC3339 "2024-02-29T23:59:59+05:30" =
    some ⟨2024, 2, 29, 23, 59, 59⟩ := by decide

example : parseRFC3339 "2023-02-29T00:00:00Z" = none := by decide

example : parseRFC3339 "2023-06-15T12:30:45.123456Z" =
    some ⟨2023, 6, 15, 12, 30, 45⟩ := by decide

/-! ### Repository: `Database.SaveBatch` (internal/repository/repo.go, lines 72-86)

The store is embedded as a list of `Delegation` in insertion order.
`SaveBatch` returns `nil` immediately on an empty batch; otherwise it runs one
transactional multi-row insert with `ON CONFLICT (id) DO NOTHING`: each row
whose `id` already exists (in the table or earlier in the same statement) is
silently skipped.  Failures of the database engine itself (disk, locking) are
outside the model, so the embedded error is always `none`. -/

/-- Whether the store already holds a record with id `i`. -/
def hasId (store : List Delegation) (i : Int) : Bool :=
  store.any (fun e => e.id == i)

/-- Insert one row under `ON CONFLICT (id) DO NOTHING`. -/
def insertOne (store : List Delegation) (d : Delegation) : List Delegation :=
  if hasId store d.id then store else store ++ [d]

/-- `Database.SaveBatch`: new store contents and the returned error. -/
def SaveBatch (store batch : List Delegation) : List Delegation × Option String :=
  if batch.isEmpty then (store, none)
  else (batch.foldl insertOne store, none)

/-! ### Service: `XtzFetcherService.StoreDelegations`
(internal/service/service.go, lines 36-60) -/

/-- The body of the translation loop of `StoreDelegations` for one raw
record: parse the timestamp with RFC3339 (failure aborts), then copy `id`,
`timestamp`, `amount`, `level`, map `sender.address` to `Delegator`, and set
`Year` to the parsed timestamp's year. -/
def translate (r : DelegationResponse) : Option Delegation :=
  match parseRFC3339 r.timestamp with
  | none => none
  | some t =>
    some { id := r.id, timestamp := r.timestamp, amount := r.amount,
           delegator := r.sender.address, level := r.level, year := t.year }

/-- The translation loop of `StoreDelegations`: translate every record in
order, aborting the whole batch at the first parse failure (the error of the
first failing record is returned; nothing is accumulated). -/
def translateBatch : List DelegationResponse → Except String (List Delegation)
  | [] => .ok []
  | r :: rest =>
    match translate r with
    | none => .error ("parsing time " ++ r.timestamp)
    | some d =>
      match translateBatch rest with
      | .error e => .error e
      | .ok ds => .ok (d :: ds)

/-- `XtzFetcherService.StoreDelegations`, given the result of the
`tzklClient.GetDelegations` call and the current store contents.  Returns the
Go `([]model.Delegation, error)` pair collapsed into `Except` (the success
slice with a `nil` error, or `nil` with the error — the embedded `SaveBatch`
never errors, so the Go case of a non-nil slice next to a non-nil save error
does not arise) together with the store contents afterwards. -/
def StoreDelegations (clientResult : Except String (List DelegationResponse))
    (store : List Delegation) : Except String (List Delegation) × List Delegation :=
  match clientResult with
  | .error e => (.error e, store)
  | .ok results =>
    match translateBatch results with
    | .error e => (.error e, store)
    | .ok ds =>
      match SaveBatch store ds with
      | (store2, some e) => (.error e, store2)
      | (store2, none) => (.ok ds, store2)

/-! ### Poller (the `Poller` struct of the service package, src/unnamed/part_001)

The mutable fields of the `Poller` struct are embedded as `PollerState`; the
cancellable context is the `cancelled` flag (`ctx.Done()` is closed exactly
when `cancel()` has run).  The `client.StoreDelegations` calls made by the
backfill loop and the poll loop are embedded as scripts: lists of the
successive results the client returns, as in the repository's own
`MockPollerService` tests.  Both loops return the final state, the reason the
loop returned (`none` when the script ran out with the loop still going) and
the number of client calls consumed. -/

/-- The mutable fields of the `Poller` struct. -/
structure PollerState where
  lastFetched : String
  offset : Int
  started : Bool
  cancelled : Bool
deriving Repr, DecidableEq, Inhabited

/-- `NewPoller`: `lastFetched` empty, `offset` 0, not started, context live. -/
def newPoller : PollerState :=
  { lastFetched := "", offset := 0, started := false, cancelled := false }

/-- `Poller.Stop`: `p.cancel()` — sets the cancellation signal. -/
def Stop (p : PollerState) : PollerState :=
  { p with cancelled := true }

/-- The cursor update both loops perform on a non-empty batch:
`p.offset += len(results); p.lastFetched = results[len(results)-1].Timestamp`. -/
def applyBatch (p : PollerState) (d : Delegation) (ds : List Delegation) : PollerState :=
  { p with offset := p.offset + ((d :: ds).length : Int),
           lastFetched := ((d :: ds).getLast (List.cons_ne_nil d ds)).timestamp }

/-- Why a loop returned: a client error was logged, or an empty batch
signalled completion. -/
inductive FetchStop where
  | errorStop
  | complete
deriving Repr, DecidableEq

/-- Why the poll loop returned: the context was observed cancelled, or a
client error made the poller stop itself. -/
inductive PollStop where
  | cancelledExit
  | errorStop
deriving Repr, DecidableEq

/-- Count one more client call in a loop result. -/
def bumpCall {α : Type} (r : PollerState × Option α × Nat) :
    PollerState × Option α × Nat :=
  (r.1, r.2.1, r.2.2 + 1)

/-- The seeding step at the start of `Poller.backfill`: the result of
`repo.GetLatestDelegation(time.Now().Year())` updates `lastFetched` only when
the lookup returned no error and a non-empty timestamp
(`if err == nil && latest.Timestamp != ""`). -/
def seed (latestResult : Except String Delegation) (p : PollerState) : PollerState :=
  match latestResult with
  | .error _ => p
  | .ok latest =>
    if latest.timestamp ≠ "" then { p with lastFetched := latest.timestamp } else p

/-- The `for` loop of `Poller.backfill`: call `client.StoreDelegations`,
return on error (logged) or on an empty batch, otherwise advance the cursor
and loop. -/
def backfillLoop : List (Except String (List Delegation)) → PollerState →
    PollerState × Option FetchStop × Nat
  | [], p => (p, none, 0)
  | .error _ :: _, p => (p, some .errorStop, 1)
  | .ok [] :: _, p => (p, some .complete, 1)
  | .ok (d :: ds) :: rest, p => bumpCall (backfillLoop rest (applyBatch p d ds))

/-- `Poller.backfill`: seed from the store's latest record of the current
year, then drain the client. -/
def backfill (latestResult : Except String Delegation)
    (script : List (Except String (List Delegation))) (p : PollerState) :
    PollerState × Option FetchStop × Nat :=
  backfillLoop script (seed latestResult p)

/-- The `select` loop of `Poller.Start`'s goroutine: before consuming a tick,
observe `ctx.Done()`; on a tick, call the client: an error stops the poller
(`p.Stop()` then `return`), an empty batch just continues, a non-empty batch
advances the cursor. -/
def pollLoop (script : List (Except String (List Delegation))) (p : PollerState) :
    PollerState × Option PollStop × Nat :=
  if p.cancelled then (p, some .cancelledExit, 0)
  else
    match script with
    | [] => (p, none, 0)
    | .error _ :: _ => (Stop p, some .errorStop, 1)
    | .ok [] :: rest => bumpCall (pollLoop rest p)
    | .ok (d :: ds) :: rest => bumpCall (pollLoop rest (applyBatch p d ds))

/-- The body of the goroutine launched by `Poller.Start`: `backfill()` runs
to completion, then the ticker loop polls.  Returns the final state, why the
poll loop returned, and the total number of client calls made. -/
def runPoller (latestResult : Except String Delegation)
    (backfillScript pollScript : List (Except String (List Delegation)))
    (p : PollerState) : PollerState × Option PollStop × Nat :=
  match backfill latestResult backfillScript p with
  | (p2, _, nBackfill) =>
    match pollLoop pollScript p2 with
    | (p3, outcome, nPoll) => (p3, outcome, nBackfill + nPoll)

/-- `Poller.Start`: a no-op when `p.started` is already set, otherwise it
sets the flag and launches the goroutine.  The second component counts the
goroutines this call launched; launching is all `Start` does synchronously
(the backfill-and-poll work itself is `runPoller`, run concurrently). -/
def Start (p : PollerState) : PollerState × Nat :=
  if p.started then (p, 0)
  else ({ p with started := true }, 1)

/-- Client calls performed when the work of `spawns` launched goroutines
executes (each launched goroutine runs `runPoller` once; `Start` launches at
most one, so at most one runs). -/
def fetchesOfSpawns (spawns : Nat) (latestResult : Except String Delegation)
    (backfillScript pollScript : List (Except String (List Delegation)))
    (p : PollerState) : Nat :=
  spawns * (runPoller latestResult backfillScript pollScript p).2.2

/-- A client result that makes the backfill loop return: an error or an
empty batch. -/
def isStopEntry : Except String (List Delegation) → Bool
  | .error _ => true
  | .ok l => l.isEmpty

/-! ### Read-side HTTP handler (`api` package, src/main.go lines 504-621)

`r.URL.Query().Get` returns the empty string for an absent parameter, so the
query parameters are embedded as plain strings with `""` meaning absent —
exactly the comparison the handler makes.  `time.Now().Year()` is the
`currentYear` argument.  The service behind the handler is the function
argument `svc` (year → offset → result), as in the `MockXtzService` tests. -/

/-- Accumulate the digits of `l` onto `acc`; `none` at the first non-digit. -/
def digitsToNat : List Char → Nat → Option Nat
  | [], acc => some acc
  | c :: rest, acc =>
    match digitVal c with
    | some d => digitsToNat rest (10 * acc + d)
    | none => none

/-- Model of Go `strconv.Atoi`: an optional sign followed by one or more
decimal digits, nothing else.  (Go's int64 range error is not modelled; no
claim exercises inputs of twenty or more digits.) -/
def Atoi (s : String) : Option Int :=
  match s.toList with
  | [] => none
  | '+' :: rest =>
    (match rest with
     | [] => none
     | _ => (digitsToNat rest 0).map Int.ofNat)
  | '-' :: rest =>
    (match rest with
     | [] => none
     | _ => (digitsToNat rest 0).map (fun n => -(n : Int)))
  | l => (digitsToNat l 0).map Int.ofNat

example : Atoi "2023" = some 2023 := by decide

example : Atoi "-10" = some (-10) := by decide

example : Atoi "invalid" = none := by decide

example : Atoi "" = none := by decide

/-- Go `strconv.Atoi` returns the pair (value, error): 0 with an error on a
syntax failure, the value with `nil` otherwise. -/
def AtoiGo (s : String) : Int × Option String :=
  match Atoi s with
  | some v => (v, none)
  | none => (0, some ("invalid syntax: " ++ s))

/-- `verifyYear` (src/main.go lines 611-621): a parse error passes through;
otherwise the year must lie in `[2018, currentYear]` or an
`InvalidYearError` is returned. -/
def verifyYear (currentYear year : Int) (err : Option String) : Except String Int :=
  match err with
  | some e => .error e
  | none =>
    if year < 2018 ∨ year > currentYear then .error ("Invalid year: " ++ toString year)
    else .ok year

/-- The year-parameter closure of `handleGetDelegations`: absent defaults to
the current year, otherwise `strconv.Atoi` then `verifyYear`. -/
def parseYearParam (currentYear : Int) (yearParam : String) : Except String Int :=
  if yearParam = "" then .ok currentYear
  else verifyYear currentYear (AtoiGo yearParam).1 (AtoiGo yearParam).2

/-- The offset-parameter closure of `handleGetDelegations`: absent defaults
to 0, otherwise `strconv.Atoi` with no further validation. -/
def parseOffsetParam (offsetParam : String) : Except String Int :=
  if offsetParam = "" then .ok 0
  else
    match (AtoiGo offsetParam).2 with
    | some e => .error e
    | none => .ok (AtoiGo offsetParam).1

/-- `DelegationAPIResponse` (src/main.go lines 504-509): the wire shape of
one delegation, with `amount` and `level` rendered by `strconv.Itoa`. -/
structure DelegationAPIResponse where
  timestamp : String
  amount : String
  delegator : String
  level : String
deriving Repr, DecidableEq, Inhabited

/-- `WrappedResponse` (src/main.go lines 511-515).  The Go field
`Data []DelegationAPIResponse` distinguishes the nil slice from the empty
one at serialization time, so it is embedded as an `Option`: `none` is Go's
nil slice. -/
structure WrappedResponse where
  data : Option (List DelegationAPIResponse)
  offset : Int
  limit : Int
deriving Repr, DecidableEq

/-- What `handleGetDelegations` writes: an error body
`{"error": message}` with a status, or a `WrappedResponse` with a status. -/
inductive HttpResponse where
  | errorResp (status : Nat) (message : String)
  | ok (status : Nat) (body : WrappedResponse)
deriving Repr, DecidableEq

/-- One `DelegationAPIResponse` from a stored record (the loop body of the
handler): `strconv.Itoa` is integer `toString`. -/
def toAPIResponse (d : Delegation) : DelegationAPIResponse :=
  { timestamp := d.timestamp, amount := toString d.amount,
    delegator := d.delegator, level := toString d.level }

/-- One `append` step of the handler's result loop on the Go slice
`apiResults`: appending to a nil slice allocates, so the accumulator becomes
non-nil as soon as the loop body runs once. -/
def appendResult (acc : Option (List DelegationAPIResponse)) (d : Delegation) :
    Option (List DelegationAPIResponse) :=
  some (acc.getD [] ++ [toAPIResponse d])

/-- The handler's result loop: `var apiResults []DelegationAPIResponse`
(nil) followed by one append per record. -/
def buildAPIResults (entry : List Delegation) : Option (List DelegationAPIResponse) :=
  entry.foldl appendResult none

/-- `ApiServer.handleGetDelegations` (src/main.go lines 541-594): validate
the year, then the offset, then query the service; each failure writes its
error body and returns; success writes the `{data, offset, limit}` envelope
with the request's offset and the constant limit 50. -/
def handleGetDelegations (currentYear : Int) (yearParam offsetParam : String)
    (svc : Int → Int → Except String (List Delegation)) : HttpResponse :=
  match parseYearParam currentYear yearParam with
  | .error _ => .errorResp 400 "Invalid year parameter"
  | .ok year =>
    match parseOffsetParam offsetParam with
    | .error _ => .errorResp 400 "Invalid offset parameter"
    | .ok offset =>
      match svc year offset with
      | .error e => .errorResp 422 e
      | .ok entry => .ok 200 { data := buildAPIResults entry, offset := offset, limit := 50 }

/-- `encoding/json` on one `DelegationAPIResponse` (no string in the claims
needs escaping). -/
def serializeAPIResponse (d : DelegationAPIResponse) : String :=
  "\x7b\"timestamp\":\"" ++ d.timestamp ++ "\",\"amount\":\"" ++ d.amount ++
    "\",\"delegator\":\"" ++ d.delegator ++ "\",\"level\":\"" ++ d.level ++ "\"\x7d"

/-- Comma-joined serialization of the elements of a data slice. -/
def serializeElems : List DelegationAPIResponse → String
  | [] => ""
  | [d] => serializeAPIResponse d
  | d :: rest => serializeAPIResponse d ++ "," ++ serializeElems rest

/-- `encoding/json` on the `data` field: a nil slice serializes as `null`, a
non-nil slice as a JSON array. -/
def serializeDataField : Option (List DelegationAPIResponse) → String
  | none => "null"
  | some l => "[" ++ serializeElems l ++ "]"

/-! ### Sample values used by witnesses -/

/-- A concrete stored record, as in the repository's tests. -/
def sampleDelegation : Delegation :=
  { id := 1, timestamp := "2023-01-01T00:00:00Z", amount := 1000,
    delegator := "addr1", level := 100, year := 2023 }

/-- A second concrete record with the same id and a contradictory payload. -/
def sampleDuplicate : Delegation :=
  { id := 1, timestamp := "2023-02-02T00:00:00Z", amount := 999,
    delegator := "addr2", level := 101, year := 2023 }

/-- A concrete raw record with a well-formed timestamp. -/
def sampleResponse : DelegationResponse :=
  { id := 1, timestamp := "2023-05-10T12:00:00Z", amount := 42,
    sender := { address := "tz1abc" }, level := 7 }

/-- A concrete raw record whose timestamp does not parse. -/
def badResponse : DelegationResponse :=
  { id := 2, timestamp := "not-a-timestamp", amount := 5,
    sender := { address := "tz1bad" }, level := 8 }

/-! ### Claims -/

/-- C1: in both the backfill loop and the poll loop, a successful non-empty
batch sets `lastFetched` to the timestamp of the batch's last element (not
to a maximum) and increases `offset` by exactly the batch length, while an
empty batch leaves both fields unchanged for the rest of the run. -/
theorem C1_cursor_advance (p : PollerState) (d : Delegation) (ds : List Delegation)
    (rest : List (Except String (List Delegation))) :
    (applyBatch p d ds).lastFetched
      = ((d :: ds).getLast (List.cons_ne_nil d ds)).timestamp
  ∧ (applyBatch p d ds).offset = p.offset + ((d :: ds).length : Int)
  ∧ backfillLoop (.ok (d :: ds) :: rest) p = bumpCall (backfillLoop rest (applyBatch p d ds))
  ∧ backfillLoop (.ok [] :: rest) p = (p, some .complete, 1)
  ∧ (p.cancelled = false →
      pollLoop (.ok (d :: ds) :: rest) p = bumpCall (pollLoop rest (applyBatch p d ds)))
  ∧ (p.cancelled = false →
      pollLoop (.ok [] :: rest) p = bumpCall (pollLoop rest p)) := by
  refine ⟨rfl, rfl, rfl, rfl, ?_, ?_⟩ <;> intro h <;> rw [pollLoop.eq_def] <;> simp [h]

/-- C1 witness: the cursor advance at a concrete one-element batch in the
poll loop, with the cancellation hypothesis discharged. -/
theorem C1_cursor_advance_witness :
    pollLoop [.ok [sampleDelegation]] newPoller
      = bumpCall (pollLoop [] (applyBatch newPoller sampleDelegation []))
  ∧ pollLoop [.ok []] newPoller = bumpCall (pollLoop [] newPoller) :=
  ⟨(C1_cursor_advance newPoller sampleDelegation [] []).2.2.2.2.1 (by decide),
   (C1_cursor_advance newPoller sampleDelegation [] []).2.2.2.2.2 (by decide)⟩

/-- `hasId` read as a membership statement. -/
lemma hasId_iff_exists (store : List Delegation) (i : Int) :
    hasId store i = true ↔ ∃ e ∈ store, e.id = i := by
  simp [hasId]

/-- `ON CONFLICT DO NOTHING` never disturbs the rows of an id that is
already present: folding a batch over the store leaves that id's rows as
they were. -/
lemma foldl_insertOne_filter (batch : List Delegation) :
    ∀ (store : List Delegation) (i : Int), hasId store i = true →
    (batch.foldl insertOne store).filter (fun e => e.id == i)
      = store.filter (fun e => e.id == i) := by
  induction batch with
  | nil => intro store i _; rfl
  | cons b rest ih =>
    intro store i h
    rw [List.foldl_cons]
    by_cases hb : hasId store b.id = true
    · rw [insertOne, if_pos hb]
      exact ih store i h
    · rw [insertOne, if_neg hb]
      have hbi : (b.id == i) = false := by
        simp only [beq_eq_false_iff_ne, ne_eq]
        intro he
        rw [he] at hb
        exact hb h
      have h2 : hasId (store ++ [b]) i = true := by
        rcases (hasId_iff_exists store i).mp h with ⟨e, he, hei⟩
        exact (hasId_iff_exists _ i).mpr ⟨e, List.mem_append_left _ he, hei⟩
      rw [ih (store ++ [b]) i h2, List.filter_append]
      simp [hbi]

/-- Folding a batch through `insertOne` keeps the ids of the store free of
duplicates. -/
lemma foldl_insertOne_nodup (batch : List Delegation) :
    ∀ store : List Delegation, (store.map Delegation.id).Nodup →
    ((batch.foldl insertOne store).map Delegation.id).Nodup := by
  induction batch with
  | nil => intro store h; exact h
  | cons b rest ih =>
    intro store h
    rw [List.foldl_cons]
    by_cases hb : hasId store b.id = true
    · rw [insertOne, if_pos hb]; exact ih store h
    · rw [insertOne, if_neg hb]
      refine ih (store ++ [b]) ?_
      rw [List.map_append]
      simp only [List.map_cons, List.map_nil]
      rw [List.nodup_append]
      refine ⟨h, List.nodup_singleton _, ?_⟩
      intro x hx hx1
      simp only [List.mem_singleton] at hx1
      subst hx1
      rcases List.mem_map.mp hx with ⟨e, he, hei⟩
      exact hb ((hasId_iff_exists store b.id).mpr ⟨e, he, hei⟩)

/-- In a store whose ids are duplicate-free, the rows carrying the id of a
member `d` are exactly `[d]`. -/
lemma filter_id_of_mem (store : List Delegation) (d : Delegation)
    (hnd : (store.map Delegation.id).Nodup) (hmem : d ∈ store) :
    store.filter (fun e => e.id == d.id) = [d] := by
  induction store with
  | nil => cases hmem
  | cons a rest ih =>
    rw [List.map_cons, List.nodup_cons] at hnd
    rcases List.mem_cons.mp hmem with rfl | hmem2
    · have hrest : rest.filter (fun e => e.id == d.id) = [] := by
        rw [List.filter_eq_nil_iff]
        intro e he
        simp only [beq_iff_eq]
        intro heq
        exact hnd.1 (heq ▸ List.mem_map_of_mem Delegation.id he)
      simp [List.filter_cons, hrest]
    · have hna : (a.id == d.id) = false := by
        simp only [beq_eq_false_iff_ne, ne_eq]
        intro heq
        exact hnd.1 (heq ▸ List.mem_map_of_mem Delegation.id hmem2)
      simp [List.filter_cons, hna, ih hnd.2 hmem2]

/-- C2: on a store with duplicate-free ids, saving a batch that repeats the
id of an already-present record `d` returns no error and leaves exactly one
row with that id — `d` itself, its first-inserted payload intact — and the
store's ids stay duplicate-free; an empty batch is a no-op returning `nil`. -/
theorem C2_savebatch_idempotent (store batch : List Delegation) (d : Delegation)
    (hnd : (store.map Delegation.id).Nodup) (hmem : d ∈ store)
    (_hdup : ∃ b ∈ batch, b.id = d.id) :
    (SaveBatch store batch).2 = none
  ∧ (SaveBatch store batch).1.filter (fun e => e.id == d.id) = [d]
  ∧ ((SaveBatch store batch).1.map Delegation.id).Nodup
  ∧ SaveBatch store [] = (store, none) := by
  have hhas : hasId store d.id = true :=
    (hasId_iff_exists store d.id).mpr ⟨d, hmem, rfl⟩
  by_cases hb : batch.isEmpty
  · refine ⟨by simp [SaveBatch, hb], ?_, ?_, rfl⟩
    · rw [SaveBatch, if_pos hb]
      exact filter_id_of_mem store d hnd hmem
    · rw [SaveBatch, if_pos hb]
      exact hnd
  · refine ⟨by simp [SaveBatch, hb], ?_, ?_, rfl⟩
    · rw [SaveBatch, if_neg hb]
      rw [foldl_insertOne_filter batch store d.id hhas]
      exact filter_id_of_mem store d hnd hmem
    · rw [SaveBatch, if_neg hb]
      exact foldl_insertOne_nodup batch store hnd

/-- C2 witness: a concrete store holding id 1, and a batch redelivering id 1
with a contradictory payload. -/
theorem C2_savebatch_idempotent_witness :
    (SaveBatch [sampleDelegation] [sampleDuplicate]).2 = none
  ∧ (SaveBatch [sampleDelegation] [sampleDuplicate]).1.filter
      (fun e => e.id == sampleDelegation.id) = [sampleDelegation] :=
  ⟨(C2_savebatch_idempotent [sampleDelegation] [sampleDuplicate] sampleDelegation
      (by decide) (by decide) ⟨sampleDuplicate, by decide, by decide⟩).1,
   (C2_savebatch_idempotent [sampleDelegation] [sampleDuplicate] sampleDelegation
      (by decide) (by decide) ⟨sampleDuplicate, by decide, by decide⟩).2.1⟩

/-- The backfill loop returns with a reason at the first stop entry of the
script, having made exactly one client call per entry up to and including
it. -/
lemma backfillLoop_first_stop (script : List (Except String (List Delegation))) :
    ∀ p : PollerState, script.any isStopEntry = true →
    (backfillLoop script p).2.1.isSome = true
  ∧ (backfillLoop script p).2.2 = script.findIdx isStopEntry + 1 := by
  induction script with
  | nil => intro p h; simp at h
  | cons r rest ih =>
    intro p h
    match r with
    | .error e =>
      refine ⟨rfl, ?_⟩
      simp [backfillLoop, List.findIdx_cons, isStopEntry]
    | .ok [] =>
      refine ⟨rfl, ?_⟩
      simp [backfillLoop, List.findIdx_cons, isStopEntry]
    | .ok (d :: ds) =>
      have h2 : rest.any isStopEntry = true := by
        simpa [isStopEntry] using h
      obtain ⟨h3, h4⟩ := ih (applyBatch p d ds) h2
      refine ⟨by simpa [backfillLoop, bumpCall] using h3, ?_⟩
      simp [backfillLoop, bumpCall, List.findIdx_cons, isStopEntry, h4]

/-- C3: over any finite client script containing an empty batch or an error,
`backfill()` returns — at the first such entry, with no retry: an error
script head returns at once having only logged, an empty head returns at
once as backfill-complete — and the goroutine of `Start()` then runs the
poll loop regardless (its client calls add to the backfill's). -/
theorem C3_backfill_terminates (script pollScript : List (Except String (List Delegation)))
    (p : PollerState) (latestResult : Except String Delegation)
    (h : script.any isStopEntry = true) :
    (backfill latestResult script p).2.1.isSome = true
  ∧ (backfill latestResult script p).2.2 = script.findIdx isStopEntry + 1
  ∧ (∀ e rest, script = .error e :: rest →
      backfill latestResult script p = (seed latestResult p, some .errorStop, 1))
  ∧ (∀ rest, script = .ok [] :: rest →
      backfill latestResult script p = (seed latestResult p, some .complete, 1))
  ∧ (runPoller latestResult script pollScript p).2.2
      = (backfill latestResult script p).2.2
        + (pollLoop pollScript (backfill latestResult script p).1).2.2 := by
  obtain ⟨h1, h2⟩ := backfillLoop_first_stop script (seed latestResult p) h
  refine ⟨h1, h2, ?_, ?_, ?_⟩
  · intro e rest heq; subst heq; rfl
  · intro rest heq; subst heq; rfl
  · rfl

/-- C3 witness: a concrete two-batch script ending in the empty batch, run
after a failed seed lookup. -/
theorem C3_backfill_terminates_witness :
    (backfill (.error "db error") [.ok [sampleDelegation], .ok []] newPoller).2.1.isSome
      = true
  ∧ (backfill (.error "db error") [.ok [sampleDelegation], .ok []] newPoller).2.2
      = ([.ok [sampleDelegation], .ok []] :
          List (Except String (List Delegation))).findIdx isStopEntry + 1 :=
  ⟨(C3_backfill_terminates [.ok [sampleDelegation], .ok []] [] newPoller
      (.error "db error") (by decide)).1,
   (C3_backfill_terminates [.ok [sampleDelegation], .ok []] [] newPoller
      (.error "db error") (by decide)).2.1⟩

/-- A parse failure anywhere in a fetched batch makes the translation loop
abort with an error. -/
lemma translateBatch_error_of_parse_fail (results : List DelegationResponse)
    (hfail : ∃ r ∈ results, parseRFC3339 r.timestamp = none) :
    ∃ e, translateBatch results = .error e := by
  induction results with
  | nil => simp at hfail
  | cons r rest ih =>
    rcases hfail with ⟨x, hx, hpx⟩
    rcases List.mem_cons.mp hx with rfl | hx2
    · exact ⟨"parsing time " ++ x.timestamp, by simp [translateBatch, translate, hpx]⟩
    · match htr : translate r with
      | none => exact ⟨"parsing time " ++ r.timestamp, by simp [translateBatch, htr]⟩
      | some dd =>
        obtain ⟨e, he⟩ := ih ⟨x, hx2, hpx⟩
        exact ⟨e, by simp [translateBatch, htr, he]⟩

/-- C5: if any record of a fetched batch has a timestamp that fails RFC3339
parsing, `StoreDelegations` returns an error and the store is exactly as
before — `SaveBatch` was never reached, so no record of the batch, earlier
ones included, was written. -/
theorem C5_parse_error_aborts (results : List DelegationResponse)
    (store : List Delegation) (r : DelegationResponse)
    (hr : r ∈ results) (hp : parseRFC3339 r.timestamp = none) :
    (∃ e, (StoreDelegations (.ok results) store).1 = .error e)
  ∧ (StoreDelegations (.ok results) store).2 = store := by
  obtain ⟨e, he⟩ := translateBatch_error_of_parse_fail results ⟨r, hr, hp⟩
  exact ⟨⟨e, by simp [StoreDelegations, he]⟩, by simp [StoreDelegations, he]⟩

/-- C5 witness: a batch whose second record has a malformed timestamp leaves
a concrete store untouched and errors. -/
theorem C5_parse_error_aborts_witness :
    (∃ e, (StoreDelegations (.ok [sampleResponse, badResponse]) [sampleDelegation]).1
        = .error e)
  ∧ (StoreDelegations (.ok [sampleResponse, badResponse]) [sampleDelegation]).2
      = [sampleDelegation] :=
  ⟨(C5_parse_error_aborts [sampleResponse, badResponse] [sampleDelegation]
      badResponse (by decide) (by decide)).1,
   (C5_parse_error_aborts [sampleResponse, badResponse] [sampleDelegation]
      badResponse (by decide) (by decide)).2⟩

/-- C4: a client error on a poll tick makes the poller stop for good:
`Stop()` runs (so the cancellation signal is set), the loop returns after
that single fetch, the cursor is untouched by the failed tick, any later poll
run fetches nothing, and a further `Stop()` changes nothing. -/
theorem C4_poll_error_stops (p : PollerState) (e : String)
    (rest : List (Except String (List Delegation)))
    (h : p.cancelled = false) :
    pollLoop (.error e :: rest) p = (Stop p, some .errorStop, 1)
  ∧ (Stop p).offset = p.offset
  ∧ (Stop p).lastFetched = p.lastFetched
  ∧ (Stop p).cancelled = true
  ∧ Stop (Stop p) = Stop p
  ∧ ∀ s, pollLoop s (Stop p) = (Stop p, some .cancelledExit, 0) := by
  refine ⟨?_, rfl, rfl, rfl, rfl, ?_⟩
  · rw [pollLoop.eq_def]; simp [h]
  · intro s; rw [pollLoop.eq_def]; simp [Stop]

/-- C4 witness: the error tick at a concrete fresh poller. -/
theorem C4_poll_error_stops_witness :
    pollLoop [.error "API error"] newPoller
      = (Stop newPoller, some .errorStop, 1)
  ∧ pollLoop [.ok [sampleDelegation]] (Stop newPoller)
      = (Stop newPoller, some .cancelledExit, 0) :=
  ⟨(C4_poll_error_stops newPoller "API error" [] (by decide)).1,
   (C4_poll_error_stops newPoller "API error" [] (by decide)).2.2.2.2.2
      [.ok [sampleDelegation]]⟩

/-- C6: for a raw record with a valid RFC3339 timestamp, translation copies
`id`, `amount`, `level` verbatim, maps `sender.address` to `Delegator`, and
sets `Year` to the calendar year of the parsed timestamp; `translate` is a
plain function of the record. -/
theorem C6_translate_fields (r : DelegationResponse) (t : ParsedTime)
    (h : parseRFC3339 r.timestamp = some t) :
    translate r = some { id := r.id, timestamp := r.timestamp, amount := r.amount,
                         delegator := r.sender.address, level := r.level,
                         year := t.year } := by
  simp [translate, h]

/-- C6 witness: translation of a concrete record. -/
theorem C6_translate_fields_witness :
    translate sampleResponse
      = some { id := 1, timestamp := "2023-05-10T12:00:00Z", amount := 42,
               delegator := "tz1abc", level := 7, year := 2023 } :=
  C6_translate_fields sampleResponse ⟨2023, 5, 10, 12, 0, 0⟩ (by decide)

/-- C7: seeding never surfaces an error (its result type has no error
component): a failed latest-record lookup, or one that returned an empty
timestamp, leaves the state unchanged — in particular `lastFetched` stays
empty on a fresh poller — while a record with a non-empty timestamp `T` sets
`lastFetched` to `T` and touches nothing else. -/
theorem C7_seed_fallback (p : PollerState) (e : String) (latest : Delegation) :
    seed (.error e) p = p
  ∧ (latest.timestamp = "" → seed (.ok latest) p = p)
  ∧ (latest.timestamp ≠ "" →
      seed (.ok latest) p = { p with lastFetched := latest.timestamp }) := by
  refine ⟨rfl, ?_, ?_⟩ <;> intro h <;> simp [seed, h]

/-- C7 witness: seeding a fresh poller from a concrete stored record and
from a failed lookup. -/
theorem C7_seed_fallback_witness :
    seed (.ok sampleDelegation) newPoller
      = { newPoller with lastFetched := "2023-01-01T00:00:00Z" }
  ∧ seed (.error "database error") newPoller = newPoller :=
  ⟨(C7_seed_fallback newPoller "database error" sampleDelegation).2.2 (by decide),
   (C7_seed_fallback newPoller "database error" sampleDelegation).1⟩

/-- C8: `Start` on a fresh poller sets the `started` flag and launches
exactly one goroutine; a second `Start` is a no-op guarded by that flag — it
changes no state and launches nothing — so the client calls made by the
launched work are those of a single `Start`.  `Start` itself performs no
fetch (the work runs in `runPoller`, concurrently). -/
theorem C8_start_idempotent (p : PollerState) (h : p.started = false) :
    (Start p).1.started = true
  ∧ (Start p).2 = 1
  ∧ Start (Start p).1 = ((Start p).1, 0)
  ∧ (Start p).2 + (Start (Start p).1).2 = (Start p).2
  ∧ (Start p).1.offset = p.offset
  ∧ (Start p).1.lastFetched = p.lastFetched
  ∧ ∀ latestResult backfillScript pollScript,
      fetchesOfSpawns ((Start p).2 + (Start (Start p).1).2)
          latestResult backfillScript pollScript (Start p).1
        = fetchesOfSpawns (Start p).2
            latestResult backfillScript pollScript (Start p).1 := by
  simp [Start, h, fetchesOfSpawns]

/-- C8 witness: two `Start` calls on a fresh poller, the second spawning
nothing and fetch totals agreeing on a concrete script. -/
theorem C8_start_idempotent_witness :
    Start (Start newPoller).1 = ((Start newPoller).1, 0)
  ∧ fetchesOfSpawns ((Start newPoller).2 + (Start (Start newPoller).1).2)
        (.error "db") [.ok [sampleDelegation], .ok []] [] (Start newPoller).1
      = fetchesOfSpawns (Start newPoller).2
          (.error "db") [.ok [sampleDelegation], .ok []] [] (Start newPoller).1 :=
  ⟨(C8_start_idempotent newPoller (by decide)).2.2.1,
   (C8_start_idempotent newPoller (by decide)).2.2.2.2.2.2
      (.error "db") [.ok [sampleDelegation], .ok []] []⟩

/-- C9: the delegations endpoint defaults an absent year to the current
year; a present year must parse as an integer and lie in
`[2018, currentYear]`, else the request is rejected with status 400; an
absent offset defaults to 0 while a present integer offset is taken as-is
with no sign or range check; and every success response is the
`{data, offset, limit}` envelope with `limit` fixed at 50 and `offset`
echoing the request. -/
theorem C9_handler_contract (currentYear : Int) (yearParam offsetParam : String)
    (svc : Int → Int → Except String (List Delegation)) :
    parseYearParam currentYear "" = .ok currentYear
  ∧ (∀ y, Atoi yearParam = some y → 2018 ≤ y → y ≤ currentYear →
      parseYearParam currentYear yearParam = .ok y)
  ∧ (∀ y, Atoi yearParam = some y → (y < 2018 ∨ y > currentYear) →
      handleGetDelegations currentYear yearParam offsetParam svc
        = .errorResp 400 "Invalid year parameter")
  ∧ (yearParam ≠ "" → Atoi yearParam = none →
      handleGetDelegations currentYear yearParam offsetParam svc
        = .errorResp 400 "Invalid year parameter")
  ∧ parseOffsetParam "" = .ok 0
  ∧ (∀ v, Atoi offsetParam = some v → parseOffsetParam offsetParam = .ok v)
  ∧ (∀ y, parseYearParam currentYear yearParam = .ok y →
      offsetParam ≠ "" → Atoi offsetParam = none →
      handleGetDelegations currentYear yearParam offsetParam svc
        = .errorResp 400 "Invalid offset parameter")
  ∧ (∀ y o l, parseYearParam currentYear yearParam = .ok y →
      parseOffsetParam offsetParam = .ok o → svc y o = .ok l →
      handleGetDelegations currentYear yearParam offsetParam svc
        = .ok 200 { data := buildAPIResults l, offset := o, limit := 50 }) := by
  have hAtoiEmpty : Atoi "" = none := by decide
  refine ⟨rfl, ?_, ?_, ?_, rfl, ?_, ?_, ?_⟩
  · intro y hy h1 h2
    have hne : yearParam ≠ "" := by
      intro h0; rw [h0, hAtoiEmpty] at hy; cases hy
    have hrange : ¬ (y < 2018 ∨ y > currentYear) := by omega
    simp [parseYearParam, hne, AtoiGo, hy, verifyYear, hrange]
  · intro y hy hrange
    have hne : yearParam ≠ "" := by
      intro h0; rw [h0, hAtoiEmpty] at hy; cases hy
    simp [handleGetDelegations, parseYearParam, hne, AtoiGo, hy, verifyYear, hrange]
  · intro hne hy
    simp [handleGetDelegations, parseYearParam, hne, AtoiGo, hy, verifyYear]
  · intro v hv
    have hne : offsetParam ≠ "" := by
      intro h0; rw [h0, hAtoiEmpty] at hv; cases hv
    simp [parseOffsetParam, hne, AtoiGo, hv]
  · intro y hy hne hv
    simp [handleGetDelegations, hy, parseOffsetParam, hne, AtoiGo, hv]
  · intro y o l hy ho hl
    simp [handleGetDelegations, hy, ho, hl]

/-- C9 witness: concrete requests against the handler — defaults, an
accepted year and negative offset, a rejected out-of-range year, and the
envelope of a one-record success. -/
theorem C9_handler_contract_witness :
    parseYearParam 2025 "" = .ok 2025
  ∧ parseOffsetParam "" = .ok 0
  ∧ parseOffsetParam "-10" = .ok (-10)
  ∧ handleGetDelegations 2025 "2017" "0" (fun _ _ => .ok [])
      = .errorResp 400 "Invalid year parameter"
  ∧ handleGetDelegations 2025 "invalid" "0" (fun _ _ => .ok [])
      = .errorResp 400 "Invalid year parameter"
  ∧ handleGetDelegations 2025 "2023" "10" (fun _ _ => .ok [sampleDelegation])
      = .ok 200 { data := buildAPIResults [sampleDelegation], offset := 10, limit := 50 } :=
  ⟨(C9_handler_contract 2025 "" "" (fun _ _ => .ok [])).1,
   (C9_handler_contract 2025 "" "" (fun _ _ => .ok [])).2.2.2.2.1,
   (C9_handler_contract 2025 "" "-10" (fun _ _ => .ok [])).2.2.2.2.2.1 (-10) (by decide),
   (C9_handler_contract 2025 "2017" "0" (fun _ _ => .ok [])).2.2.1 2017 (by decide)
      (Or.inl (by decide)),
   (C9_handler_contract 2025 "invalid" "0" (fun _ _ => .ok [])).2.2.2.1
      (by decide) (by decide),
   (C9_handler_contract 2025 "2023" "10"
      (fun _ _ => .ok [sampleDelegation])).2.2.2.2.2.2.2 2023 10 [sampleDelegation]
      (by rfl) (by rfl) rfl⟩

/-- C10: when the service returns zero records for a valid request, the
handler answers 200 with the envelope still carrying `offset` and
`limit = 50`, but its `data` field is Go's nil slice — never touched because
the loop body never ran — which serializes as JSON `null`, not as `[]`. -/
theorem C10_empty_data_null (currentYear : Int) (yearParam offsetParam : String)
    (svc : Int → Int → Except String (List Delegation)) (y o : Int)
    (hy : parseYearParam currentYear yearParam = .ok y)
    (ho : parseOffsetParam offsetParam = .ok o)
    (hsvc : svc y o = .ok []) :
    handleGetDelegations currentYear yearParam offsetParam svc
      = .ok 200 { data := none, offset := o, limit := 50 }
  ∧ buildAPIResults [] = none
  ∧ serializeDataField none = "null"
  ∧ serializeDataField (some []) = "[]" := by
  exact ⟨by simp [handleGetDelegations, hy, ho, hsvc, buildAPIResults], rfl, rfl, rfl⟩

/-- C10 witness: a concrete empty-result request. -/
theorem C10_empty_data_null_witness :
    handleGetDelegations 2025 "2023" "" (fun _ _ => .ok [])
      = .ok 200 { data := none, offset := 0, limit := 50 } :=
  (C10_empty_data_null 2025 "2023" "" (fun _ _ => .ok []) 2023 0
    (by rfl) (by rfl) rfl).1

end TezosDelegation
